import Mathlib

/-!
Verification of `validation/projects/projects.go`

A shallow embedding of the test helpers of `validation/projects/projects.go`.

Conventions of the embedding:

* a Go `error` is a value of `GoError`; a `nil` error is `none : Option GoError`;
* a Go `map[string]T` is an association list `List (String × T)`; indexing a
  missing key yields the zero value of `T`, the comma-ok form yields an `Option`;
* calls that reach the remote cluster (listing, fetching, creating objects) are
  parameters of the embedded function: an `Except GoError _` outcome, or a
  function producing one;
* a possibly-nil Go slice whose nil-ness is observable is an `Option (List _)`,
  `none` being the nil slice.
-/

set_option autoImplicit false

namespace Projects

/-! ## Errors and formatting -/

/-- Go error values: `errorsNew msg` is what `errors.New` and a `fmt.Errorf` without `%w`
build, `wrap msg cause` is what `fmt.Errorf` with a `%w` verb builds (`msg` is the whole
formatted text). -/
inductive GoError where
  | errorsNew (msg : String)
  | wrap (msg : String) (cause : GoError)
  deriving DecidableEq, Repr

/-- The method `Error()` of an error value. -/
def GoError.Error : GoError → String
  | .errorsNew msg => msg
  | .wrap msg _ => msg

/-- The function `errors.Unwrap`. -/
def GoError.Unwrap : GoError → Option GoError
  | .errorsNew _ => none
  | .wrap _ cause => some cause

/-- The verb `%d` of `fmt` on an integer. -/
def fmtD (n : Int) : String := toString n

/-- The function `strconv.Itoa` on a length. -/
def strconvItoa (n : Nat) : String := toString n

/-- Substring test on character lists: `sub` occurs in `s` at some offset. -/
def containsChars : List Char → List Char → Bool
  | [], sub => sub.isEmpty
  | c :: cs, sub => sub.isPrefixOf (c :: cs) || containsChars cs sub

/-- The function `strings.Contains`. -/
def stringsContains (s substr : String) : Bool :=
  containsChars s.data substr.data

/-- The function `strings.Join`. -/
def stringsJoin (elems : List String) (sep : String) : String :=
  sep.intercalate elems

/-! ## Go maps -/

/-- The comma-ok index `v, ok := m[k]`. -/
def mapLookup {β : Type} (m : List (String × β)) (k : String) : Option β :=
  match m with
  | [] => none
  | (k', v) :: rest => if k' = k then some v else mapLookup rest k

/-- The plain index `m[k]`, the zero value `zero` standing for a missing key. -/
def mapIndex {β : Type} (zero : β) (m : List (String × β)) (k : String) : β :=
  (mapLookup m k).getD zero

/-! ## Kubernetes objects (the fields the helpers read) -/

/-- The fields of `corev1.Namespace` read by the helpers. -/
structure Namespace where
  Name : String
  Annotations : List (String × String)
  deriving DecidableEq, Repr

/-- A `appv1.DeploymentCondition`. `LastUpdateTime` is the instant as a signed offset from
the zero time `time.Time{}`; times decoded from the cluster carry no monotonic clock
reading, so `Time.After` compares instants. -/
structure DeploymentCondition where
  Type_ : String
  LastUpdateTime : Int
  Reason : String
  Message : String
  deriving DecidableEq, Repr

/-- The fields of `appv1.Deployment` read by the helpers. -/
structure Deployment where
  Conditions : List DeploymentCondition
  ReadyReplicas : Int
  deriving DecidableEq, Repr

/-- The zero time `time.Time{}`. -/
def zeroTime : Int := 0

/-- The method `Time.After`. -/
def timeAfter (t u : Int) : Bool := decide (u < t)

/-! ## checkAnnotationExistsInNamespace -/

/-- The literal `map[bool]string{true: "", false: " not"}` indexed by `b`. -/
def shouldSuffix (b : Bool) : String :=
  match b with
  | true => ""
  | false => " not"

/-- Embedding of `checkAnnotationExistsInNamespace`; `getNamespaceByName` is the outcome
of `namespaces.GetNamespaceByName`. -/
def checkAnnotationExistsInNamespace
    (getNamespaceByName : String → String → Except GoError Namespace)
    (clusterID namespaceName annotationKey : String) (expectedExistence : Bool) :
    Option GoError :=
  match getNamespaceByName clusterID namespaceName with
  | .error err => some err
  | .ok ns =>
    let exists_ := (mapLookup ns.Annotations annotationKey).isSome
    if (expectedExistence && !exists_) || (!expectedExistence && exists_) then
      let errorMessage :=
        "Annotation '" ++ annotationKey ++ "' should" ++ shouldSuffix expectedExistence ++ " exist"
      some (GoError.errorsNew errorMessage)
    else
      none

/-! ## getLatestStatusMessageFromDeployment -/

/-- The loop state of `getLatestStatusMessageFromDeployment`. -/
structure Latest where
  latestTime : Int
  latestMessage : String
  latestReason : String
  deriving DecidableEq, Repr

/-- One iteration of the loop over `deployment.Status.Conditions`. -/
def latestStep (targetMessageType : String) (st : Latest) (condition : DeploymentCondition) :
    Latest :=
  if condition.Type_ = targetMessageType ∧ timeAfter condition.LastUpdateTime st.latestTime = true then
    { latestTime := condition.LastUpdateTime
      latestMessage := condition.Message
      latestReason := condition.Reason }
  else
    st

/-- The loop of `getLatestStatusMessageFromDeployment` from a given state. -/
def latestLoop (targetMessageType : String) (st : Latest) (conds : List DeploymentCondition) :
    Latest :=
  conds.foldl (latestStep targetMessageType) st

/-- Embedding of `getLatestStatusMessageFromDeployment`. -/
def getLatestStatusMessageFromDeployment (deployment : Deployment) (messageType : String) :
    String × String × Option GoError :=
  let st := latestLoop messageType
    { latestTime := zeroTime, latestMessage := "", latestReason := "" }
    deployment.Conditions
  (st.latestMessage, st.latestReason, none)

/-! ## checkDeploymentStatus -/

/-- Embedding of `checkDeploymentStatus`; `listDeployments` is the outcome of
`deployments.ListDeployments` for the namespace and the field selector it is given. -/
def checkDeploymentStatus
    (listDeployments : String → String → String → Except GoError (List Deployment))
    (clusterID namespaceName deploymentName statusType expectedStatusReason
      expectedStatusMessage : String)
    (expectedReplicaCount : Int) : Option GoError :=
  match listDeployments clusterID namespaceName ("metadata.name=" ++ deploymentName) with
  | .error err => some err
  | .ok items =>
    match items with
    | [] => some (GoError.errorsNew ("deployment " ++ deploymentName ++ " not found"))
    | updatedDeployment :: _ =>
      match getLatestStatusMessageFromDeployment updatedDeployment statusType with
      | (_, _, some err) => some err
      | (statusMsg, statusReason, none) =>
        if !stringsContains statusMsg expectedStatusMessage then
          some (GoError.errorsNew ("expected status message: " ++ expectedStatusMessage
            ++ ", actual status message: " ++ statusMsg))
        else if !stringsContains statusReason expectedStatusReason then
          some (GoError.errorsNew ("expected status reason: " ++ expectedStatusReason
            ++ ", actual status reason: " ++ statusReason))
        else if updatedDeployment.ReadyReplicas ≠ expectedReplicaCount then
          some (GoError.errorsNew ("unexpected number of ready replicas: expected "
            ++ fmtD expectedReplicaCount ++ ", got " ++ fmtD updatedDeployment.ReadyReplicas))
        else
          none

/-! ## getStatusAndMessageFromAnnotation -/

/-- The Go type `map[string][]map[string]string` the annotation is decoded into. -/
abbrev AnnotationData := List (String × List (List (String × String)))

/-- The loop over `conditions` of `getStatusAndMessageFromAnnotation`, with the `return`
that follows it. -/
def conditionsLoop (conditionType : String) :
    List (List (String × String)) → String × String × Option GoError
  | [] => ("", "", some (GoError.errorsNew ("no condition of type '" ++ conditionType ++ "' found")))
  | condition :: rest =>
    if mapIndex "" condition "Type" = conditionType then
      let status := mapIndex "" condition "Status"
      let message := mapIndex "" condition "Message"
      (status, message, none)
    else
      conditionsLoop conditionType rest

/-- Embedding of `getStatusAndMessageFromAnnotation`; `jsonUnmarshal` is `json.Unmarshal`
into a `map[string][]map[string]string`. -/
def getStatusAndMessageFromAnnotation (jsonUnmarshal : String → Except GoError AnnotationData)
    ( annotation conditionType : String) : String × String × Option GoError :=
  match jsonUnmarshal annotation with
  | .error err => ("", "", some (GoError.errorsNew ("error parsing JSON: " ++ err.Error)))
  | .ok annotationData =>
    match mapLookup annotationData "Conditions" with
    | none => ("", "", some (GoError.errorsNew "no 'Conditions' found in annotation"))
    | some conditions => conditionsLoop conditionType conditions

/-! ## checkContainerResources -/

/-- A `resource.Quantity`, represented by the canonical text its method `String()` returns. -/
structure Quantity where
  text : String
  deriving DecidableEq, Repr

/-- The zero value `resource.Quantity{}`, which a map index yields for a missing key; it
prints as `0`. -/
def Quantity.zero : Quantity := { text := "0" }

/-- The method `Quantity.String()`. -/
def Quantity.String (q : Quantity) : String := q.text

/-- The constant `corev1.ResourceCPU`. -/
def ResourceCPU : String := "cpu"

/-- The constant `corev1.ResourceMemory`. -/
def ResourceMemory : String := "memory"

/-- A `corev1.ResourceRequirements`. -/
structure ResourceRequirements where
  Limits : List (String × Quantity)
  Requests : List (String × Quantity)
  deriving DecidableEq, Repr

/-- The field of `corev1.Container` read by the helpers. -/
structure Container where
  Resources : ResourceRequirements
  deriving DecidableEq, Repr

/-- The field `Spec.Containers` of a `corev1.Pod`. -/
structure Pod where
  Containers : List Container
  deriving DecidableEq, Repr

/-- The closure `normalizeString` of `checkContainerResources`. -/
def normalizeString (s : String) : String :=
  if s = "" then "0" else s

/-- Embedding of `checkContainerResources`; `getPodNamesFromDeployment` and `getPodByName`
are the outcomes of `pods.GetPodNamesFromDeployment` and `pods.GetPodByName`. -/
def checkContainerResources
    (getPodNamesFromDeployment : String → String → String → Except GoError (List String))
    (getPodByName : String → String → String → Except GoError Pod)
    (clusterID namespaceName deploymentName cpuLimit cpuReservation memoryLimit
      memoryReservation : String) : Option GoError :=
  let errs : List String := []
  match getPodNamesFromDeployment clusterID namespaceName deploymentName with
  | .error err =>
    some (GoError.wrap ("error fetching pod by deployment name: " ++ err.Error) err)
  | .ok podNames =>
    match podNames with
    | [] =>
      some (GoError.errorsNew
        ("expected at least one pod, but got " ++ strconvItoa (List.length ([] : List String))))
    | podName0 :: _ =>
      match getPodByName clusterID namespaceName podName0 with
      | .error err => some err
      | .ok pod =>
        match pod.Containers with
        | [] => some (GoError.errorsNew "no containers found in the pod")
        | container0 :: _ =>
          let cpuLimit := normalizeString cpuLimit
          let cpuReservation := normalizeString cpuReservation
          let memoryLimit := normalizeString memoryLimit
          let memoryReservation := normalizeString memoryReservation
          let containerResources := container0.Resources
          let containerCPULimit := mapIndex Quantity.zero containerResources.Limits ResourceCPU
          let containerCPURequest := mapIndex Quantity.zero containerResources.Requests ResourceCPU
          let containerMemoryLimit :=
            mapIndex Quantity.zero containerResources.Limits ResourceMemory
          let containerMemoryRequest :=
            mapIndex Quantity.zero containerResources.Requests ResourceMemory
          let errs :=
            if cpuLimit ≠ containerCPULimit.String then errs ++ ["CPU limit mismatch"] else errs
          let errs :=
            if cpuReservation ≠ containerCPURequest.String then
              errs ++ ["CPU reservation mismatch"] else errs
          let errs :=
            if memoryLimit ≠ containerMemoryLimit.String then
              errs ++ ["Memory limit mismatch"] else errs
          let errs :=
            if memoryReservation ≠ containerMemoryRequest.String then
              errs ++ ["Memory reservation mismatch"] else errs
          if errs.length > 0 then
            some (GoError.errorsNew (stringsJoin errs "\n"))
          else
            none

/-! ## checkLimitRange -/

/-- The fields of `corev1.LimitRangeItem` read by `checkLimitRange`. -/
structure LimitRangeItem where
  Default : List (String × Quantity)
  DefaultRequest : List (String × Quantity)
  deriving DecidableEq, Repr

/-- The field `Spec.Limits` of a `corev1.LimitRange`. -/
structure LimitRange where
  Limits : List LimitRangeItem
  deriving DecidableEq, Repr

/-- What a call of a helper that may index out of range does: it returns its `error`
result, or the Go runtime panics. -/
inductive Outcome where
  | returned (err : Option GoError)
  | panicked (msg : String)
  deriving DecidableEq, Repr

/-- The part of the cluster's wrangler context `checkLimitRange` uses:
`ctx.Core.LimitRange().List(namespace, opts)`. -/
structure WranglerContext where
  listLimitRange : String → Except GoError (List LimitRange)

/-- Embedding of `checkLimitRange`; `getClusterWranglerContext` is the outcome of
`clusterapi.GetClusterWranglerContext`. -/
def checkLimitRange
    (getClusterWranglerContext : String → Except GoError WranglerContext)
    (clusterID namespaceName expectedCPULimit expectedCPURequest expectedMemoryLimit
      expectedMemoryRequest : String) : Outcome :=
  match getClusterWranglerContext clusterID with
  | .error err => .returned (some err)
  | .ok ctx =>
    match ctx.listLimitRange namespaceName with
    | .error err => .returned (some err)
    | .ok items =>
      match items with
      | [limitRange] =>
        match limitRange.Limits with
        | [] => .panicked "runtime error: index out of range [0] with length 0"
        | limits0 :: _ =>
          match mapLookup limits0.Default "cpu" with
          | none => .returned (some (GoError.errorsNew "cpu limit not found in the limit range"))
          | some actualCPULimit =>
            let cpuLimit := actualCPULimit.String
            if cpuLimit ≠ expectedCPULimit then
              .returned (some (GoError.errorsNew ("cpu limit in the limit range: " ++ cpuLimit
                ++ " does not match the expected value: " ++ expectedCPULimit)))
            else
              match mapLookup limits0.Default "memory" with
              | none =>
                .returned (some (GoError.errorsNew "memory limit not found in the limit range"))
              | some actualMemoryLimit =>
                let memoryLimit := actualMemoryLimit.String
                if memoryLimit ≠ expectedMemoryLimit then
                  .returned (some (GoError.errorsNew ("memory limit in the limit range: "
                    ++ memoryLimit ++ " does not match the expected value: "
                    ++ expectedMemoryLimit)))
                else
                  match mapLookup limits0.DefaultRequest "cpu" with
                  | none =>
                    .returned (some (GoError.errorsNew "cpu request not found in the limit range"))
                  | some actualCPURequest =>
                    let cpuRequest := actualCPURequest.String
                    if cpuRequest ≠ expectedCPURequest then
                      .returned (some (GoError.errorsNew ("cpu request in the limit range: "
                        ++ cpuRequest ++ " does not match the expected value: "
                        ++ expectedCPURequest)))
                    else
                      match mapLookup limits0.DefaultRequest "memory" with
                      | none =>
                        .returned (some (GoError.errorsNew
                          "memory request not found in the limit range"))
                      | some actualMemoryRequest =>
                        let memoryRequest := actualMemoryRequest.String
                        if memoryRequest ≠ expectedMemoryRequest then
                          .returned (some (GoError.errorsNew
                            ("memory request in the limit range: " ++ memoryRequest
                              ++ " does not match the expected value: "
                              ++ expectedMemoryRequest)))
                        else
                          .returned none
      | _ =>
        .returned (some (GoError.errorsNew
          ("expected limit range count is 1, but got " ++ fmtD (items.length : Nat))))

/-! ## createNamespacesInProject -/

/-- The error `context.DeadlineExceeded`, which the poll returns when its deadline passes. -/
def contextDeadlineExceeded : GoError := GoError.errorsNew "context deadline exceeded"

/-- The timer loop of the poll: before each further call of `condition` the loop waits for
the next tick; `ticks` is the number of ticks that fire before the deadline. -/
def pollLoop {σ : Type} (condition : σ → (Bool × Option GoError) × σ) :
    Nat → σ → Option GoError × σ
  | 0, s => (some contextDeadlineExceeded, s)
  | ticks + 1, s =>
    match condition s with
    | ((_, some err), s') => (some err, s')
    | ((true, none), s') => (none, s')
    | ((false, none), s') => pollLoop condition ticks s'

/-- Modelled from the spec: `kwait.PollUntilContextTimeout` is library code that is not part
of the source; it is the bounded poll loop of the spec, which calls `condition` (at once
when `immediate` is set), stops with the error when the condition returns one, stops with
success when the condition reports done, and otherwise tries again on the next tick until
the deadline. The interval and the timeout are abstracted in `ticks`, the number of timer
ticks before the deadline; `σ` is the state the condition closure reads and writes. -/
def PollUntilContextTimeout {σ : Type} (ticks : Nat) (immediate : Bool)
    (condition : σ → (Bool × Option GoError) × σ) (s : σ) : Option GoError × σ :=
  if immediate then
    match condition s with
    | ((_, some err), s') => (some err, s')
    | ((true, none), s') => (none, s')
    | ((false, none), s') => pollLoop condition ticks s'
  else
    pollLoop condition ticks s

/-- The state `createNamespacesInProject` works on: the captured variable `namespaces`
(`none` is the nil slice) and two counters of the instrumentation, the number of calls of
`projects.CreateNamespaceUsingWrangler` made so far and the number of poll attempts
started so far. -/
structure CreateState where
  namespaces : Option (List Namespace)
  calls : Nat
  attempts : Nat
  deriving DecidableEq, Repr

/-- The built-in `append` on a possibly-nil slice. -/
def goAppend {α : Type} (xs : Option (List α)) (x : α) : Option (List α) :=
  some (xs.getD [] ++ [x])

/-- The `for i := 0; i < count; i++` loop of the poll condition, with the `return true, nil`
that follows it; the first argument is the number of iterations left. `create` gives the
outcome of the k-th call (from 0) of `projects.CreateNamespaceUsingWrangler`. -/
def createLoop (create : Nat → Except GoError Namespace) :
    Nat → CreateState → (Bool × Option GoError) × CreateState
  | 0, s => ((true, none), s)
  | n + 1, s =>
    match create s.calls with
    | .error err => ((false, some err), { s with calls := s.calls + 1 })
    | .ok ns =>
      createLoop create n { s with namespaces := goAppend s.namespaces ns, calls := s.calls + 1 }

/-- The poll condition closure of `createNamespacesInProject`. -/
def createCondition (create : Nat → Except GoError Namespace) (count : Int) (s : CreateState) :
    (Bool × Option GoError) × CreateState :=
  createLoop create count.toNat { s with namespaces := some [], attempts := s.attempts + 1 }

/-- Embedding of `createNamespacesInProject`: the returned slice, the returned error and
the final state (for its counters). `create clusterID projectID k` is the outcome of the
k-th call of `projects.CreateNamespaceUsingWrangler`. -/
def createNamespacesInProject (create : String → String → Nat → Except GoError Namespace)
    (ticks : Nat) (clusterID projectID : String) (count : Int) :
    Option (List Namespace) × Option GoError × CreateState :=
  let s0 : CreateState := { namespaces := none, calls := 0, attempts := 0 }
  match PollUntilContextTimeout ticks true (createCondition (create clusterID projectID) count) s0 with
  | (some err, s) =>
    (none, some (GoError.wrap ("failed to create " ++ fmtD count ++ " namespaces: " ++ err.Error) err), s)
  | (none, s) => (s.namespaces, none, s)

/-! ## Auxiliary lemmas -/

theorem mapLookup_isSome_iff {β : Type} (m : List (String × β)) (k : String) :
    (mapLookup m k).isSome = true ↔ k ∈ m.map Prod.fst := by
  induction m with
  | nil => simp [mapLookup]
  | cons p rest ih =>
    obtain ⟨k', v⟩ := p
    by_cases h : k' = k
    · simp [mapLookup, h]
    · have h' : ¬ k = k' := fun e => h e.symm
      simp [mapLookup, h, h', ih]

theorem stringsContains_empty_left (e : String) :
    stringsContains "" e = true ↔ e = "" := by
  obtain ⟨cs⟩ := e
  cases cs with
  | nil => simp [stringsContains, containsChars]
  | cons c cs =>
    simp only [stringsContains, containsChars, List.isEmpty_cons]
    constructor
    · intro h; cases h
    · intro h
      have hd := congrArg String.data h
      cases hd

theorem latestStep_time_le (mt : String) (st : Latest) (c : DeploymentCondition) :
    st.latestTime ≤ (latestStep mt st c).latestTime := by
  unfold latestStep timeAfter
  split
  · rename_i h
    have := h.2
    simp at this
    simp; omega
  · exact le_refl _

theorem latestLoop_nil (mt : String) (st : Latest) : latestLoop mt st [] = st := rfl

theorem latestLoop_cons (mt : String) (st : Latest) (c : DeploymentCondition)
    (l : List DeploymentCondition) :
    latestLoop mt st (c :: l) = latestLoop mt (latestStep mt st c) l := rfl

/-- A condition that is of another type, or not after the latest time, leaves the state. -/
theorem latestStep_skip (mt : String) (st : Latest) (c : DeploymentCondition)
    (h : c.Type_ = mt → c.LastUpdateTime ≤ st.latestTime) : latestStep mt st c = st := by
  unfold latestStep timeAfter
  split
  · rename_i hc
    have h1 := h hc.1
    have h2 := hc.2
    simp at h2
    omega
  · rfl

/-- A condition of the type that is after the latest time becomes the state. -/
theorem latestStep_take (mt : String) (st : Latest) (c : DeploymentCondition)
    (ht : c.Type_ = mt) (h : st.latestTime < c.LastUpdateTime) :
    latestStep mt st c =
      { latestTime := c.LastUpdateTime, latestMessage := c.Message, latestReason := c.Reason } := by
  unfold latestStep timeAfter
  simp [ht, h]

/-- The loop leaves the state when no condition of the type is after the latest time. -/
theorem latestLoop_skip (mt : String) (l : List DeploymentCondition) (st : Latest)
    (h : ∀ d ∈ l, d.Type_ = mt → d.LastUpdateTime ≤ st.latestTime) :
    latestLoop mt st l = st := by
  induction l generalizing st with
  | nil => rfl
  | cons c l ih =>
    rw [latestLoop_cons, latestStep_skip mt st c (h c (List.mem_cons_self _ _))]
    exact ih st (fun d hd => h d (List.mem_cons_of_mem _ hd))

/-- The loop ends on the first condition of the type whose time is the maximum, when that
time is after the time of the initial state. -/
theorem latestLoop_first_max (mt : String) (pre : List DeploymentCondition)
    (c : DeploymentCondition) (post : List DeploymentCondition) (st : Latest)
    (ht : c.Type_ = mt) (hst : st.latestTime < c.LastUpdateTime)
    (hpre : ∀ d ∈ pre, d.Type_ = mt → d.LastUpdateTime < c.LastUpdateTime)
    (hpost : ∀ d ∈ post, d.Type_ = mt → d.LastUpdateTime ≤ c.LastUpdateTime) :
    latestLoop mt st (pre ++ c :: post) =
      { latestTime := c.LastUpdateTime, latestMessage := c.Message, latestReason := c.Reason } := by
  induction pre generalizing st with
  | nil =>
    rw [List.nil_append, latestLoop_cons, latestStep_take mt st c ht hst]
    exact latestLoop_skip mt post _ hpost
  | cons d pre ih =>
    rw [List.cons_append, latestLoop_cons]
    apply ih
    · by_cases hd : d.Type_ = mt ∧ st.latestTime < d.LastUpdateTime
      · rw [latestStep_take mt st d hd.1 hd.2]
        exact hpre d (List.mem_cons_self _ _) hd.1
      · rw [latestStep_skip mt st d (fun h => by
          by_contra hc
          exact hd ⟨h, by omega⟩)]
        exact hst
    · exact fun x hx => hpre x (List.mem_cons_of_mem _ hx)

/-- Some condition of the type after the bound `b` exists only if the list splits around the
first condition of the type with the maximal time. -/
theorem exists_first_max (mt : String) (l : List DeploymentCondition) (b : Int)
    (h : ∃ c ∈ l, c.Type_ = mt ∧ b < c.LastUpdateTime) :
    ∃ pre c post, l = pre ++ c :: post ∧ c.Type_ = mt ∧ b < c.LastUpdateTime ∧
      (∀ d ∈ pre, d.Type_ = mt → d.LastUpdateTime < c.LastUpdateTime) ∧
      (∀ d ∈ post, d.Type_ = mt → d.LastUpdateTime ≤ c.LastUpdateTime) := by
  induction l generalizing b with
  | nil => obtain ⟨c, hc, _⟩ := h; cases hc
  | cons x xs ih =>
    by_cases hx : x.Type_ = mt ∧ b < x.LastUpdateTime
    · by_cases hgt : ∃ c ∈ xs, c.Type_ = mt ∧ x.LastUpdateTime < c.LastUpdateTime
      · obtain ⟨pre, c, post, hl, hct, hcb, hpre, hpost⟩ := ih x.LastUpdateTime hgt
        refine ⟨x :: pre, c, post, by rw [hl]; rfl, hct, by omega, ?_, hpost⟩
        intro d hd hdt
        rcases List.mem_cons.mp hd with rfl | hd
        · exact hcb
        · exact hpre d hd hdt
      · refine ⟨[], x, xs, rfl, hx.1, hx.2, by simp, ?_⟩
        intro d hd hdt
        by_contra hlt
        exact hgt ⟨d, hd, hdt, by omega⟩
    · obtain ⟨c, hc, hct, hcb⟩ := h
      have hcxs : c ∈ xs := by
        rcases List.mem_cons.mp hc with rfl | hc
        · exact absurd ⟨hct, hcb⟩ hx
        · exact hc
      obtain ⟨pre, c', post, hl, hct', hcb', hpre, hpost⟩ := ih b ⟨c, hcxs, hct, hcb⟩
      refine ⟨x :: pre, c', post, by rw [hl]; rfl, hct', hcb', ?_, hpost⟩
      intro d hd hdt
      rcases List.mem_cons.mp hd with rfl | hd
      · by_contra hlt
        exact hx ⟨hdt, by omega⟩
      · exact hpre d hd hdt

/-- Dropping conditions that the loop skips in every state at or after `b` does not change
the loop from such a state. -/
theorem latestLoop_filter (mt : String) (keep : DeploymentCondition → Bool) (b : Int)
    (hskip : ∀ c, keep c = false → c.Type_ = mt → c.LastUpdateTime ≤ b)
    (l : List DeploymentCondition) (st : Latest) (hst : b ≤ st.latestTime) :
    latestLoop mt st (l.filter keep) = latestLoop mt st l := by
  induction l generalizing st with
  | nil => rfl
  | cons c l ih =>
    rw [latestLoop_cons]
    by_cases hk : keep c = true
    · rw [List.filter_cons_of_pos hk, latestLoop_cons]
      exact ih _ (le_trans hst (latestStep_time_le mt st c))
    · have hk' : keep c = false := by simpa using hk
      rw [List.filter_cons_of_neg hk,
        latestStep_skip mt st c (fun h => le_trans (hskip c hk' h) hst)]
      exact ih st hst

/-- With no condition of the type, the helper returns two empty strings and no error. -/
theorem getLatest_empty_of_no_condition (deployment : Deployment)
    (messageType : String) (h : ∀ c ∈ deployment.Conditions, c.Type_ ≠ messageType) :
    getLatestStatusMessageFromDeployment deployment messageType = ("", "", none) := by
  unfold getLatestStatusMessageFromDeployment
  rw [latestLoop_skip messageType deployment.Conditions _ (fun d hd ht => absurd ht (h d hd))]

/-- The loop of `getStatusAndMessageFromAnnotation` returns at the first entry of the type. -/
theorem conditionsLoop_first (conditionType : String) (pre : List (List (String × String)))
    (c : List (String × String)) (post : List (List (String × String)))
    (hpre : ∀ d ∈ pre, mapIndex "" d "Type" ≠ conditionType)
    (hc : mapIndex "" c "Type" = conditionType) :
    conditionsLoop conditionType (pre ++ c :: post) =
      (mapIndex "" c "Status", mapIndex "" c "Message", none) := by
  induction pre with
  | nil => simp [conditionsLoop, hc]
  | cons d pre ih =>
    rw [List.cons_append, conditionsLoop, if_neg (hpre d (List.mem_cons_self _ _))]
    exact ih (fun x hx => hpre x (List.mem_cons_of_mem _ hx))

/-- The loop of `getStatusAndMessageFromAnnotation` falls through when no entry is of the
type. -/
theorem conditionsLoop_none (conditionType : String) (l : List (List (String × String)))
    (h : ∀ d ∈ l, mapIndex "" d "Type" ≠ conditionType) :
    conditionsLoop conditionType l =
      ("", "", some (GoError.errorsNew ("no condition of type '" ++ conditionType ++ "' found"))) := by
  induction l with
  | nil => rfl
  | cons d l ih =>
    rw [conditionsLoop, if_neg (h d (List.mem_cons_self _ _))]
    exact ih (fun x hx => h x (List.mem_cons_of_mem _ hx))

/-- The loop of `getStatusAndMessageFromAnnotation` returns empty strings with an error. -/
theorem conditionsLoop_error_empty (conditionType : String) (l : List (List (String × String)))
    (e : GoError) (h : (conditionsLoop conditionType l).2.2 = some e) :
    (conditionsLoop conditionType l).1 = "" ∧ (conditionsLoop conditionType l).2.1 = "" := by
  induction l with
  | nil => exact ⟨rfl, rfl⟩
  | cons d l ih =>
    rw [conditionsLoop] at h ⊢
    split
    · rename_i hd
      rw [if_pos hd] at h
      cases h
    · rename_i hd
      rw [if_neg hd] at h
      exact ih h

/-- A poll whose first call of the condition returns an error returns that error. -/
theorem PollUntilContextTimeout_error {σ : Type} (ticks : Nat)
    (condition : σ → (Bool × Option GoError) × σ) (s s' : σ) (b : Bool) (e : GoError)
    (h : condition s = ((b, some e), s')) :
    PollUntilContextTimeout ticks true condition s = (some e, s') := by
  simp [PollUntilContextTimeout, h]

/-- A poll whose first call of the condition reports done returns nil. -/
theorem PollUntilContextTimeout_done {σ : Type} (ticks : Nat)
    (condition : σ → (Bool × Option GoError) × σ) (s s' : σ)
    (h : condition s = ((true, none), s')) :
    PollUntilContextTimeout ticks true condition s = (none, s') := by
  simp [PollUntilContextTimeout, h]

/-- The creation loop stops at the first failing creation, after `i + 1` calls. -/
theorem createLoop_fail (create : Nat → Except GoError Namespace) (i : Nat) :
    ∀ (n : Nat) (s : CreateState) (e : GoError), i < n →
      (∀ k < i, ∃ ns, create (s.calls + k) = .ok ns) →
      create (s.calls + i) = .error e →
      ∃ nss, createLoop create n s =
        ((false, some e), { namespaces := nss, calls := s.calls + i + 1, attempts := s.attempts }) := by
  induction i with
  | zero =>
    intro n s e hn _ hfail
    obtain ⟨n, rfl⟩ : ∃ m, n = m + 1 := ⟨n - 1, by omega⟩
    rw [Nat.add_zero] at hfail
    exact ⟨s.namespaces, by simp [createLoop, hfail]⟩
  | succ i ih =>
    intro n s e hn hok hfail
    obtain ⟨n, rfl⟩ : ∃ m, n = m + 1 := ⟨n - 1, by omega⟩
    obtain ⟨ns, hns⟩ := hok 0 (Nat.succ_pos _)
    rw [Nat.add_zero] at hns
    obtain ⟨nss, hnss⟩ := ih n
      { s with namespaces := goAppend s.namespaces ns, calls := s.calls + 1 } e (by omega)
      (fun k hk => by
        have := hok (k + 1) (by omega)
        simpa [Nat.add_assoc, Nat.add_comm 1 k] using this)
      (by simpa [Nat.add_assoc, Nat.add_comm 1 i] using hfail)
    refine ⟨nss, ?_⟩
    simp only [createLoop, hns, hnss]
    simp [Nat.add_assoc, Nat.add_comm 1 i]

/-- The creation loop appends the created namespaces in order when every creation succeeds. -/
theorem createLoop_ok (create : Nat → Except GoError Namespace) (n : Nat) :
    ∀ (s : CreateState) (xs : List Namespace) (nss : Nat → Namespace),
      s.namespaces = some xs →
      (∀ k < n, create (s.calls + k) = .ok (nss k)) →
      createLoop create n s =
        ((true, none), { namespaces := some (xs ++ (List.range n).map nss),
                         calls := s.calls + n, attempts := s.attempts }) := by
  induction n with
  | zero =>
    intro s xs nss hs _
    obtain ⟨nsp, calls, attempts⟩ := s
    simp only at hs
    simp [createLoop, hs]
  | succ n ih =>
    intro s xs nss hs hok
    have h0 := hok 0 (Nat.succ_pos _)
    rw [Nat.add_zero] at h0
    have := ih { s with namespaces := goAppend s.namespaces (nss 0), calls := s.calls + 1 }
      (xs ++ [nss 0]) (fun k => nss (k + 1)) (by simp [goAppend, hs])
      (fun k hk => by
        have := hok (k + 1) (by omega)
        simpa [Nat.add_assoc, Nat.add_comm 1 k] using this)
    simp only [createLoop, h0, this]
    simp [List.range_succ_eq_map, List.map_map, Function.comp_def, Nat.add_assoc, Nat.add_comm 1 n]

/-! ## checkAnnotationExistsInNamespace: presence against expectation -/

/-- C6: once the namespace has been fetched, `checkAnnotationExistsInNamespace` returns an
error exactly when the presence of `annotationKey` among the keys of the namespace's
annotations (whatever the value, the empty string included) differs from
`expectedExistence`; the text is `Annotation '<key>' should exist` when the key was expected
and is absent, and `Annotation '<key>' should not exist` when it was not expected and is
present. -/
theorem checkAnnotationExistsInNamespace_iff
    (getNamespaceByName : String → String → Except GoError Namespace)
    (clusterID namespaceName annotationKey : String) (expectedExistence : Bool)
    (ns : Namespace) (hfetch : getNamespaceByName clusterID namespaceName = .ok ns) :
    (checkAnnotationExistsInNamespace getNamespaceByName clusterID namespaceName annotationKey
        expectedExistence ≠ none ↔
      ¬ (annotationKey ∈ ns.Annotations.map Prod.fst ↔ expectedExistence = true)) ∧
    (expectedExistence = true → annotationKey ∉ ns.Annotations.map Prod.fst →
      checkAnnotationExistsInNamespace getNamespaceByName clusterID namespaceName annotationKey
        expectedExistence =
        some (GoError.errorsNew ("Annotation '" ++ annotationKey ++ "' should exist"))) ∧
    (expectedExistence = false → annotationKey ∈ ns.Annotations.map Prod.fst →
      checkAnnotationExistsInNamespace getNamespaceByName clusterID namespaceName annotationKey
        expectedExistence =
        some (GoError.errorsNew ("Annotation '" ++ annotationKey ++ "' should not exist"))) := by
  have hs1 : ∀ k : String, "Annotation '" ++ k ++ "' should" ++ "" ++ " exist"
      = "Annotation '" ++ k ++ "' should exist" := by
    intro k
    rw [String.append_empty, String.append_assoc, String.append_assoc]
    rfl
  have hs2 : ∀ k : String, "Annotation '" ++ k ++ "' should" ++ " not" ++ " exist"
      = "Annotation '" ++ k ++ "' should not exist" := by
    intro k
    rw [String.append_assoc, String.append_assoc, String.append_assoc, String.append_assoc]
    rfl
  have hp := mapLookup_isSome_iff ns.Annotations annotationKey
  unfold checkAnnotationExistsInNamespace
  rw [hfetch]
  cases expectedExistence <;>
    cases hl : (mapLookup ns.Annotations annotationKey).isSome <;>
    simp [hl, shouldSuffix, hs1, hs2] at hp ⊢ <;> simp_all

/-- C6, at a concrete namespace: the key `k` is mapped to the empty string and was not
expected. -/
theorem checkAnnotationExistsInNamespace_iff_witness :
    checkAnnotationExistsInNamespace
      (fun _ _ => .ok { Name := "ns", Annotations := [("k", "")] }) "c" "ns" "k" false =
      some (GoError.errorsNew ("Annotation '" ++ "k" ++ "' should not exist")) :=
  (checkAnnotationExistsInNamespace_iff
    (fun _ _ => .ok { Name := "ns", Annotations := [("k", "")] }) "c" "ns" "k" false
    { Name := "ns", Annotations := [("k", "")] } rfl).2.2 rfl (by simp)

/-! ## getLatestStatusMessageFromDeployment: no error, latest condition -/

/-- C5: `getLatestStatusMessageFromDeployment` never produces an error: its third result is
always nil, and when no condition of the deployment has the type `messageType` (an empty
condition list included) the result is `("", "", nil)`. -/
theorem getLatestStatusMessageFromDeployment_no_error (deployment : Deployment)
    (messageType : String) :
    (getLatestStatusMessageFromDeployment deployment messageType).2.2 = none ∧
    ((∀ c ∈ deployment.Conditions, c.Type_ ≠ messageType) →
      getLatestStatusMessageFromDeployment deployment messageType = ("", "", none)) := by
  refine ⟨rfl, fun h => ?_⟩
  unfold getLatestStatusMessageFromDeployment
  rw [latestLoop_skip messageType deployment.Conditions _ (fun d hd ht => absurd ht (h d hd))]

/-- C5, at a deployment whose only condition is of another type. -/
theorem getLatestStatusMessageFromDeployment_no_error_witness :
    getLatestStatusMessageFromDeployment
      { Conditions := [{ Type_ := "Progressing", LastUpdateTime := 7, Reason := "r",
                         Message := "m" }],
        ReadyReplicas := 1 } "Available" = ("", "", none) :=
  (getLatestStatusMessageFromDeployment_no_error
    { Conditions := [{ Type_ := "Progressing", LastUpdateTime := 7, Reason := "r",
                       Message := "m" }],
      ReadyReplicas := 1 } "Available").2 (by simp)

/-- C8: when some condition has the type `messageType` and a `LastUpdateTime` after the zero
time, the conditions split around the first condition of that type whose `LastUpdateTime` is
the maximum among the conditions of that type (strictly later than every earlier one, not
earlier than any later one), and the returned message and reason are those of that
condition; dropping the conditions of that type at the zero time, or the conditions of
other types, does not change the result. -/
theorem getLatestStatusMessageFromDeployment_selects_latest (deployment : Deployment)
    (messageType : String) :
    ((∃ c ∈ deployment.Conditions, c.Type_ = messageType ∧ zeroTime < c.LastUpdateTime) →
      (∃ pre c post, deployment.Conditions = pre ++ c :: post ∧ c.Type_ = messageType ∧
        (∀ d ∈ pre, d.Type_ = messageType → d.LastUpdateTime < c.LastUpdateTime) ∧
        (∀ d ∈ post, d.Type_ = messageType → d.LastUpdateTime ≤ c.LastUpdateTime)) ∧
      (∀ pre c post, deployment.Conditions = pre ++ c :: post → c.Type_ = messageType →
        (∀ d ∈ pre, d.Type_ = messageType → d.LastUpdateTime < c.LastUpdateTime) →
        (∀ d ∈ post, d.Type_ = messageType → d.LastUpdateTime ≤ c.LastUpdateTime) →
        getLatestStatusMessageFromDeployment deployment messageType
          = (c.Message, c.Reason, none))) ∧
    getLatestStatusMessageFromDeployment deployment messageType =
      getLatestStatusMessageFromDeployment
        { deployment with
          Conditions := deployment.Conditions.filter
            (fun c => !(decide (c.Type_ = messageType) && decide (c.LastUpdateTime = zeroTime))) }
        messageType ∧
    getLatestStatusMessageFromDeployment deployment messageType =
      getLatestStatusMessageFromDeployment
        { deployment with
          Conditions := deployment.Conditions.filter (fun c => decide (c.Type_ = messageType)) }
        messageType := by
  refine ⟨fun h => ⟨?_, ?_⟩, ?_, ?_⟩
  · obtain ⟨pre, c, post, hl, ht, _, hpre, hpost⟩ :=
      exists_first_max messageType deployment.Conditions zeroTime h
    exact ⟨pre, c, post, hl, ht, hpre, hpost⟩
  · intro pre c post hl ht hpre hpost
    obtain ⟨w, hw, hwt, hw0⟩ := h
    have hc0 : zeroTime < c.LastUpdateTime := by
      rw [hl] at hw
      rcases List.mem_append.mp hw with hw | hw
      · exact lt_trans hw0 (hpre w hw hwt)
      · rcases List.mem_cons.mp hw with rfl | hw
        · exact hw0
        · exact lt_of_lt_of_le hw0 (hpost w hw hwt)
    unfold getLatestStatusMessageFromDeployment
    rw [hl, latestLoop_first_max messageType pre c post _ ht hc0 hpre hpost]
  · unfold getLatestStatusMessageFromDeployment
    simp only
    rw [latestLoop_filter messageType _ zeroTime _ deployment.Conditions _ (le_refl _)]
    intro c hk _
    simp at hk
    exact le_of_eq hk.2
  · unfold getLatestStatusMessageFromDeployment
    simp only
    rw [latestLoop_filter messageType _ zeroTime _ deployment.Conditions _ (le_refl _)]
    intro c hk ht
    simp at hk
    exact absurd ht hk

/-- C8, at a deployment with two conditions of the type at the maximal time 7: the earlier
of the two is returned. -/
theorem getLatestStatusMessageFromDeployment_selects_latest_witness :
    getLatestStatusMessageFromDeployment
      { Conditions :=
          [{ Type_ := "Available", LastUpdateTime := 5, Reason := "r1", Message := "m1" },
           { Type_ := "Progressing", LastUpdateTime := 9, Reason := "r2", Message := "m2" },
           { Type_ := "Available", LastUpdateTime := 7, Reason := "r3", Message := "m3" },
           { Type_ := "Available", LastUpdateTime := 7, Reason := "r4", Message := "m4" },
           { Type_ := "Available", LastUpdateTime := 0, Reason := "r5", Message := "m5" }],
        ReadyReplicas := 1 } "Available" = ("m3", "r3", none) :=
  ((getLatestStatusMessageFromDeployment_selects_latest
    { Conditions :=
        [{ Type_ := "Available", LastUpdateTime := 5, Reason := "r1", Message := "m1" },
         { Type_ := "Progressing", LastUpdateTime := 9, Reason := "r2", Message := "m2" },
         { Type_ := "Available", LastUpdateTime := 7, Reason := "r3", Message := "m3" },
         { Type_ := "Available", LastUpdateTime := 7, Reason := "r4", Message := "m4" },
         { Type_ := "Available", LastUpdateTime := 0, Reason := "r5", Message := "m5" }],
      ReadyReplicas := 1 } "Available").1
    ⟨{ Type_ := "Available", LastUpdateTime := 5, Reason := "r1", Message := "m1" },
      by simp, rfl, by decide⟩).2
    [{ Type_ := "Available", LastUpdateTime := 5, Reason := "r1", Message := "m1" },
     { Type_ := "Progressing", LastUpdateTime := 9, Reason := "r2", Message := "m2" }]
    { Type_ := "Available", LastUpdateTime := 7, Reason := "r3", Message := "m3" }
    [{ Type_ := "Available", LastUpdateTime := 7, Reason := "r4", Message := "m4" },
     { Type_ := "Available", LastUpdateTime := 0, Reason := "r5", Message := "m5" }]
    rfl rfl (by simp) (by simp)

/-! ## checkDeploymentStatus: a missing condition -/

/-- C7: for a non-empty deployment list whose first item has no condition of the type
`statusType`, `checkDeploymentStatus` returns nil exactly when the expected message and the
expected reason are empty and the first item's `ReadyReplicas` is the expected count; every
error it returns is one of the three mismatch errors, with an empty actual message or
reason, never an error that the condition was not found. -/
theorem checkDeploymentStatus_missing_condition
    (listDeployments : String → String → String → Except GoError (List Deployment))
    (clusterID namespaceName deploymentName statusType expectedStatusReason
      expectedStatusMessage : String)
    (expectedReplicaCount : Int) (first : Deployment) (rest : List Deployment)
    (hlist : listDeployments clusterID namespaceName ("metadata.name=" ++ deploymentName)
      = .ok (first :: rest))
    (hnone : ∀ c ∈ first.Conditions, c.Type_ ≠ statusType) :
    (checkDeploymentStatus listDeployments clusterID namespaceName deploymentName statusType
        expectedStatusReason expectedStatusMessage expectedReplicaCount = none ↔
      expectedStatusMessage = "" ∧ expectedStatusReason = "" ∧
        first.ReadyReplicas = expectedReplicaCount) ∧
    (∀ e, checkDeploymentStatus listDeployments clusterID namespaceName deploymentName
        statusType expectedStatusReason expectedStatusMessage expectedReplicaCount = some e →
      e = GoError.errorsNew ("expected status message: " ++ expectedStatusMessage
            ++ ", actual status message: " ++ "") ∨
      e = GoError.errorsNew ("expected status reason: " ++ expectedStatusReason
            ++ ", actual status reason: " ++ "") ∨
      e = GoError.errorsNew ("unexpected number of ready replicas: expected "
            ++ fmtD expectedReplicaCount ++ ", got " ++ fmtD first.ReadyReplicas)) := by
  have hget := (getLatest_empty_of_no_condition first statusType hnone)
  unfold checkDeploymentStatus
  rw [hlist]
  simp only [hget]
  by_cases hm : expectedStatusMessage = ""
  · by_cases hr : expectedStatusReason = ""
    · by_cases hc : first.ReadyReplicas = expectedReplicaCount
      · simp [hm, hr, hc, (stringsContains_empty_left "").mpr rfl]
      · simp [hm, hr, hc, (stringsContains_empty_left "").mpr rfl]
    · have hr' : stringsContains "" expectedStatusReason = false := by
        rw [Bool.eq_false_iff]; exact fun h => hr ((stringsContains_empty_left _).mp h)
      simp [hm, hr, hr', (stringsContains_empty_left "").mpr rfl]
  · have hm' : stringsContains "" expectedStatusMessage = false := by
      rw [Bool.eq_false_iff]; exact fun h => hm ((stringsContains_empty_left _).mp h)
    simp [hm, hm']

/-- C7, at a deployment without conditions, with empty expectations and one ready
replica expected and found. -/
theorem checkDeploymentStatus_missing_condition_witness :
    checkDeploymentStatus (fun _ _ _ => .ok [{ Conditions := [], ReadyReplicas := 1 }])
      "c" "ns" "d" "Available" "" "" 1 = none :=
  ((checkDeploymentStatus_missing_condition
    (fun _ _ _ => .ok [{ Conditions := [], ReadyReplicas := 1 }])
    "c" "ns" "d" "Available" "" "" 1 { Conditions := [], ReadyReplicas := 1 } [] rfl
    (by simp)).1).mpr ⟨rfl, rfl, rfl⟩

/-! ## getStatusAndMessageFromAnnotation: first matching condition -/

/-- C9: for an annotation that decodes into a map of lists of string maps: without the key
`Conditions` the result is the error `no 'Conditions' found in annotation`; with it, when
some entry has `Type` (a Go map index, the empty string for a missing key) equal to
`conditionType`, the result is the `Status` and `Message` of the first such entry with a
nil error; with it and no such entry, the result is the error
`no condition of type '<conditionType>' found`. Whenever the error is not nil, decoding
error included, the two strings are empty. -/
theorem getStatusAndMessageFromAnnotation_spec
    (jsonUnmarshal : String → Except GoError AnnotationData) ( annotation conditionType : String) :
    (∀ data, jsonUnmarshal annotation = .ok data →
      (mapLookup data "Conditions" = none →
        getStatusAndMessageFromAnnotation jsonUnmarshal annotation conditionType =
          ("", "", some (GoError.errorsNew "no 'Conditions' found in annotation"))) ∧
      (∀ conditions, mapLookup data "Conditions" = some conditions →
        (∀ pre c post, conditions = pre ++ c :: post →
          (∀ d ∈ pre, mapIndex "" d "Type" ≠ conditionType) →
          mapIndex "" c "Type" = conditionType →
          getStatusAndMessageFromAnnotation jsonUnmarshal annotation conditionType =
            (mapIndex "" c "Status", mapIndex "" c "Message", none)) ∧
        ((∀ d ∈ conditions, mapIndex "" d "Type" ≠ conditionType) →
          getStatusAndMessageFromAnnotation jsonUnmarshal annotation conditionType =
            ("", "", some (GoError.errorsNew
              ("no condition of type '" ++ conditionType ++ "' found")))))) ∧
    (∀ e, ( getStatusAndMessageFromAnnotation jsonUnmarshal annotation conditionType).2.2 = some e →
      ( getStatusAndMessageFromAnnotation jsonUnmarshal annotation conditionType).1 = "" ∧
      ( getStatusAndMessageFromAnnotation jsonUnmarshal annotation conditionType).2.1 = "") := by
  refine ⟨fun data hdata => ⟨fun hnone => ?_, fun conditions hsome => ⟨?_, ?_⟩⟩, ?_⟩
  · simp [ getStatusAndMessageFromAnnotation, hdata, hnone]
  · intro pre c post hl hpre hc
    simp only [ getStatusAndMessageFromAnnotation, hdata, hsome, hl]
    exact conditionsLoop_first conditionType pre c post hpre hc
  · intro hno
    simp only [ getStatusAndMessageFromAnnotation, hdata, hsome]
    exact conditionsLoop_none conditionType conditions hno
  · intro e he
    unfold getStatusAndMessageFromAnnotation at he ⊢
    cases hj : jsonUnmarshal annotation with
    | error err => exact ⟨rfl, rfl⟩
    | ok data =>
      rw [hj] at he
      simp only at he ⊢
      cases hm : mapLookup data "Conditions" with
      | none => simp
      | some conditions =>
        simp only [hm] at he ⊢
        exact conditionsLoop_error_empty conditionType conditions e he

/-- C9, at an annotation with two entries of the requested type: the first is returned,
and its missing `Message` reads as the empty string. -/
theorem getStatusAndMessageFromAnnotation_spec_witness :
    getStatusAndMessageFromAnnotation
      (fun _ => .ok [("Conditions",
        [[("Type", "InitialRolesPopulated"), ("Status", "True")],
         [("Type", "ResourceQuotaValidated"), ("Status", "False")],
         [("Type", "ResourceQuotaValidated"), ("Status", "True"), ("Message", "late")]])])
      "a" "ResourceQuotaValidated" = ("False", "", none) :=
  (((getStatusAndMessageFromAnnotation_spec
      (fun _ => .ok [("Conditions",
        [[("Type", "InitialRolesPopulated"), ("Status", "True")],
         [("Type", "ResourceQuotaValidated"), ("Status", "False")],
         [("Type", "ResourceQuotaValidated"), ("Status", "True"), ("Message", "late")]])])
      "a" "ResourceQuotaValidated").1 _ rfl).2 _ rfl).1
    [[("Type", "InitialRolesPopulated"), ("Status", "True")]]
    [("Type", "ResourceQuotaValidated"), ("Status", "False")]
    [[("Type", "ResourceQuotaValidated"), ("Status", "True"), ("Message", "late")]]
    rfl (by simp [mapIndex, mapLookup]) (by simp [mapIndex, mapLookup])

/-! ## checkContainerResources: every mismatch is collected -/

/-- C1: once the pod and its first container have been fetched, with the expected strings
normalised (an empty string reads `0`) and the observed strings those of the first
container's quantities, `checkContainerResources` returns nil exactly when the four pairs
are equal, and otherwise the error whose text is the labels of the mismatching fields
joined by newlines, each once, in the order CPU limit, CPU reservation, memory limit,
memory reservation. -/
theorem checkContainerResources_collects
    (getPodNamesFromDeployment : String → String → String → Except GoError (List String))
    (getPodByName : String → String → String → Except GoError Pod)
    (clusterID namespaceName deploymentName cpuLimit cpuReservation memoryLimit
      memoryReservation : String)
    (podName0 : String) (podNames : List String) (pod : Pod) (container0 : Container)
    (containers : List Container) (o1 o2 o3 o4 : String)
    (hnames : getPodNamesFromDeployment clusterID namespaceName deploymentName
      = .ok (podName0 :: podNames))
    (hpod : getPodByName clusterID namespaceName podName0 = .ok pod)
    (hcont : pod.Containers = container0 :: containers)
    (h1 : (mapIndex Quantity.zero container0.Resources.Limits "cpu").String = o1)
    (h2 : (mapIndex Quantity.zero container0.Resources.Requests "cpu").String = o2)
    (h3 : (mapIndex Quantity.zero container0.Resources.Limits "memory").String = o3)
    (h4 : (mapIndex Quantity.zero container0.Resources.Requests "memory").String = o4) :
    (checkContainerResources getPodNamesFromDeployment getPodByName clusterID namespaceName
        deploymentName cpuLimit cpuReservation memoryLimit memoryReservation = none ↔
      normalizeString cpuLimit = o1 ∧ normalizeString cpuReservation = o2 ∧
        normalizeString memoryLimit = o3 ∧ normalizeString memoryReservation = o4) ∧
    (¬ (normalizeString cpuLimit = o1 ∧ normalizeString cpuReservation = o2 ∧
        normalizeString memoryLimit = o3 ∧ normalizeString memoryReservation = o4) →
      checkContainerResources getPodNamesFromDeployment getPodByName clusterID namespaceName
        deploymentName cpuLimit cpuReservation memoryLimit memoryReservation =
        some (GoError.errorsNew ("\n".intercalate
          (([(normalizeString cpuLimit, o1, "CPU limit mismatch"),
             (normalizeString cpuReservation, o2, "CPU reservation mismatch"),
             (normalizeString memoryLimit, o3, "Memory limit mismatch"),
             (normalizeString memoryReservation, o4, "Memory reservation mismatch")].filter
              (fun t => decide (t.1 ≠ t.2.1))).map (fun t => t.2.2))))) := by
  unfold checkContainerResources
  simp only [hnames, hpod, hcont, ResourceCPU, ResourceMemory, h1, h2, h3, h4, stringsJoin]
  by_cases e1 : normalizeString cpuLimit = o1 <;>
    by_cases e2 : normalizeString cpuReservation = o2 <;>
    by_cases e3 : normalizeString memoryLimit = o3 <;>
    by_cases e4 : normalizeString memoryReservation = o4 <;>
    simp [e1, e2, e3, e4]

/-- C1, at a container with a cpu limit of 500m and nothing else set, against expected
values that differ in the cpu limit and the memory reservation. -/
theorem checkContainerResources_collects_witness :
    checkContainerResources (fun _ _ _ => .ok ["pod-0"])
      (fun _ _ _ => .ok { Containers := [{ Resources :=
        { Limits := [("cpu", { text := "500m" })], Requests := [] } }] })
      "c" "ns" "d" "1" "" "" "64Mi" =
      some (GoError.errorsNew "CPU limit mismatch\nMemory reservation mismatch") :=
  (checkContainerResources_collects (fun _ _ _ => .ok ["pod-0"])
    (fun _ _ _ => .ok { Containers := [{ Resources :=
      { Limits := [("cpu", { text := "500m" })], Requests := [] } }] })
    "c" "ns" "d" "1" "" "" "64Mi" "pod-0" []
    { Containers := [{ Resources :=
      { Limits := [("cpu", { text := "500m" })], Requests := [] } }] }
    { Resources := { Limits := [("cpu", { text := "500m" })], Requests := [] } } []
    "500m" "0" "0" "0" rfl rfl rfl (by decide) (by decide) (by decide) (by decide)).2
    (by decide)

/-! ## checkLimitRange: the first mismatch is returned -/

/-- C2, refuted: with one limit range whose first item defines all four values and all four
differ from the expected ones, the returned error is the cpu limit error only; its text
names none of the memory limit, the cpu request and the memory request. -/
theorem checkLimitRange_reports_first_only :
    checkLimitRange
      (fun _ => .ok { listLimitRange := fun _ => .ok [{ Limits := [
        { Default := [("cpu", { text := "1" }), ("memory", { text := "1Gi" })],
          DefaultRequest := [("cpu", { text := "500m" }), ("memory", { text := "512Mi" })] }] }] })
      "c" "ns" "2" "250m" "2Gi" "256Mi" =
      .returned (some (GoError.errorsNew
        "cpu limit in the limit range: 1 does not match the expected value: 2")) ∧
    ("1Gi" ≠ "2Gi" ∧ "500m" ≠ "250m" ∧ "512Mi" ≠ "256Mi") ∧
    stringsContains "cpu limit in the limit range: 1 does not match the expected value: 2"
      "memory limit" = false ∧
    stringsContains "cpu limit in the limit range: 1 does not match the expected value: 2"
      "cpu request" = false ∧
    stringsContains "cpu limit in the limit range: 1 does not match the expected value: 2"
      "memory request" = false := by
  refine ⟨by decide, by decide, by decide, by decide, by decide⟩

/-- C2, amended: for a namespace with exactly one limit range whose first limit item
defines cpu and memory in both `Default` and `DefaultRequest`, `checkLimitRange` returns
nil exactly when the four observed values equal the expected ones, and otherwise the
error of the first field, in the order cpu limit, memory limit, cpu request, memory
request, whose observed value differs, with that field's observed and expected values. -/
theorem checkLimitRange_first_mismatch
    (getClusterWranglerContext : String → Except GoError WranglerContext)
    (clusterID namespaceName expectedCPULimit expectedCPURequest expectedMemoryLimit
      expectedMemoryRequest : String)
    (ctx : WranglerContext) (limitRange : LimitRange) (limits0 : LimitRangeItem)
    (limits : List LimitRangeItem) (cl ml cr mr : Quantity)
    (hctx : getClusterWranglerContext clusterID = .ok ctx)
    (hlist : ctx.listLimitRange namespaceName = .ok [limitRange])
    (hlimits : limitRange.Limits = limits0 :: limits)
    (hcl : mapLookup limits0.Default "cpu" = some cl)
    (hml : mapLookup limits0.Default "memory" = some ml)
    (hcr : mapLookup limits0.DefaultRequest "cpu" = some cr)
    (hmr : mapLookup limits0.DefaultRequest "memory" = some mr) :
    (checkLimitRange getClusterWranglerContext clusterID namespaceName expectedCPULimit
        expectedCPURequest expectedMemoryLimit expectedMemoryRequest = .returned none ↔
      cl.String = expectedCPULimit ∧ ml.String = expectedMemoryLimit ∧
        cr.String = expectedCPURequest ∧ mr.String = expectedMemoryRequest) ∧
    (cl.String ≠ expectedCPULimit →
      checkLimitRange getClusterWranglerContext clusterID namespaceName expectedCPULimit
        expectedCPURequest expectedMemoryLimit expectedMemoryRequest =
        .returned (some (GoError.errorsNew ("cpu limit in the limit range: " ++ cl.String
          ++ " does not match the expected value: " ++ expectedCPULimit)))) ∧
    (cl.String = expectedCPULimit → ml.String ≠ expectedMemoryLimit →
      checkLimitRange getClusterWranglerContext clusterID namespaceName expectedCPULimit
        expectedCPURequest expectedMemoryLimit expectedMemoryRequest =
        .returned (some (GoError.errorsNew ("memory limit in the limit range: " ++ ml.String
          ++ " does not match the expected value: " ++ expectedMemoryLimit)))) ∧
    (cl.String = expectedCPULimit → ml.String = expectedMemoryLimit →
      cr.String ≠ expectedCPURequest →
      checkLimitRange getClusterWranglerContext clusterID namespaceName expectedCPULimit
        expectedCPURequest expectedMemoryLimit expectedMemoryRequest =
        .returned (some (GoError.errorsNew ("cpu request in the limit range: " ++ cr.String
          ++ " does not match the expected value: " ++ expectedCPURequest)))) ∧
    (cl.String = expectedCPULimit → ml.String = expectedMemoryLimit →
      cr.String = expectedCPURequest → mr.String ≠ expectedMemoryRequest →
      checkLimitRange getClusterWranglerContext clusterID namespaceName expectedCPULimit
        expectedCPURequest expectedMemoryLimit expectedMemoryRequest =
        .returned (some (GoError.errorsNew ("memory request in the limit range: " ++ mr.String
          ++ " does not match the expected value: " ++ expectedMemoryRequest)))) := by
  unfold checkLimitRange
  simp only [hctx, hlist, hlimits, hcl, hml, hcr, hmr]
  by_cases e1 : cl.String = expectedCPULimit <;>
    by_cases e2 : ml.String = expectedMemoryLimit <;>
    by_cases e3 : cr.String = expectedCPURequest <;>
    by_cases e4 : mr.String = expectedMemoryRequest <;>
    simp [e1, e2, e3, e4]

/-- C2 amended, at a limit range whose cpu limit matches and whose memory limit and cpu
request both differ: the memory limit error alone is returned. -/
theorem checkLimitRange_first_mismatch_witness :
    checkLimitRange
      (fun _ => .ok { listLimitRange := fun _ => .ok [{ Limits := [
        { Default := [("cpu", { text := "1" }), ("memory", { text := "1Gi" })],
          DefaultRequest := [("cpu", { text := "500m" }), ("memory", { text := "512Mi" })] }] }] })
      "c" "ns" "1" "250m" "2Gi" "512Mi" =
      .returned (some (GoError.errorsNew ("memory limit in the limit range: "
        ++ Quantity.String { text := "1Gi" } ++ " does not match the expected value: " ++ "2Gi"))) :=
  (checkLimitRange_first_mismatch
    (fun _ => .ok { listLimitRange := fun _ => .ok [{ Limits := [
      { Default := [("cpu", { text := "1" }), ("memory", { text := "1Gi" })],
        DefaultRequest := [("cpu", { text := "500m" }), ("memory", { text := "512Mi" })] }] }] })
    "c" "ns" "1" "250m" "2Gi" "512Mi"
    { listLimitRange := fun _ => .ok [{ Limits := [
      { Default := [("cpu", { text := "1" }), ("memory", { text := "1Gi" })],
        DefaultRequest := [("cpu", { text := "500m" }), ("memory", { text := "512Mi" })] }] }] }
    { Limits := [
      { Default := [("cpu", { text := "1" }), ("memory", { text := "1Gi" })],
        DefaultRequest := [("cpu", { text := "500m" }), ("memory", { text := "512Mi" })] }] }
    { Default := [("cpu", { text := "1" }), ("memory", { text := "1Gi" })],
      DefaultRequest := [("cpu", { text := "500m" }), ("memory", { text := "512Mi" })] }
    [] { text := "1" } { text := "1Gi" } { text := "500m" } { text := "512Mi" }
    rfl rfl rfl (by decide) (by decide) (by decide) (by decide)).2.2.1 (by decide) (by decide)

/-! ## createNamespacesInProject: one attempt -/

/-- C3: when the creations 0..i-1 succeed and creation i (i < count) fails,
`createNamespacesInProject` makes exactly i+1 creation calls in a single poll attempt,
whatever the number of ticks left before the deadline, and returns a nil namespace list
with a non-nil error. -/
theorem createNamespacesInProject_no_retry
    (create : String → String → Nat → Except GoError Namespace) (ticks : Nat)
    (clusterID projectID : String) (count : Int) (i : Nat) (e : GoError)
    (hi : (i : Int) < count)
    (hok : ∀ k < i, ∃ ns, create clusterID projectID k = .ok ns)
    (hfail : create clusterID projectID i = .error e) :
    (createNamespacesInProject create ticks clusterID projectID count).2.2.calls = i + 1 ∧
    (createNamespacesInProject create ticks clusterID projectID count).2.2.attempts = 1 ∧
    (createNamespacesInProject create ticks clusterID projectID count).1 = none ∧
    (createNamespacesInProject create ticks clusterID projectID count).2.1 ≠ none := by
  obtain ⟨nss, hloop⟩ := createLoop_fail (create clusterID projectID) i count.toNat
    { namespaces := some [], calls := 0, attempts := 0 + 1 } e (by omega)
    (fun k hk => by simpa using hok k hk) (by simpa using hfail)
  have hpoll := PollUntilContextTimeout_error ticks
    (createCondition (create clusterID projectID) count)
    { namespaces := none, calls := 0, attempts := 0 } _ false e hloop
  simp [createNamespacesInProject, hpoll]

/-- C3, at a count of 3 where the second creation fails. -/
theorem createNamespacesInProject_no_retry_witness :
    (createNamespacesInProject
      (fun _ _ k => if k = 1 then .error (GoError.errorsNew "boom")
        else .ok { Name := "ns", Annotations := [] }) 20 "c" "p" 3).2.2.calls = 1 + 1 :=
  (createNamespacesInProject_no_retry
    (fun _ _ k => if k = 1 then .error (GoError.errorsNew "boom")
      else .ok { Name := "ns", Annotations := [] }) 20 "c" "p" 3 1 (GoError.errorsNew "boom")
    (by decide) (fun k hk => ⟨{ Name := "ns", Annotations := [] }, by
      have : k = 0 := by omega
      subst this; rfl⟩) rfl).1

/-- C4, refuted: with a count of 1 and a creation that fails with the error `boom`, the
returned error is not that error: it is a new error that wraps it, and its text is
`failed to create 1 namespaces: boom`. -/
theorem createNamespacesInProject_error_not_unchanged :
    (createNamespacesInProject (fun _ _ _ => .error (GoError.errorsNew "boom")) 20 "c" "p" 1).2.1
      = some (GoError.wrap "failed to create 1 namespaces: boom" (GoError.errorsNew "boom")) ∧
    (createNamespacesInProject (fun _ _ _ => .error (GoError.errorsNew "boom")) 20 "c" "p" 1).2.1
      ≠ some (GoError.errorsNew "boom") ∧
    ((createNamespacesInProject (fun _ _ _ => .error (GoError.errorsNew "boom")) 20 "c" "p" 1).2.1.map
      GoError.Error) ≠ some (GoError.Error (GoError.errorsNew "boom")) := by
  refine ⟨by decide, by decide, by decide⟩

/-- C4, amended: when a creation fails with the error e (the earlier ones succeeding), the
error `createNamespacesInProject` returns is a new error that wraps e: unwrapping it gives
e, and its text is `failed to create <count> namespaces: ` followed by the text of e. -/
theorem createNamespacesInProject_error_wraps
    (create : String → String → Nat → Except GoError Namespace) (ticks : Nat)
    (clusterID projectID : String) (count : Int) (i : Nat) (e : GoError)
    (hi : (i : Int) < count)
    (hok : ∀ k < i, ∃ ns, create clusterID projectID k = .ok ns)
    (hfail : create clusterID projectID i = .error e) :
    (createNamespacesInProject create ticks clusterID projectID count).2.1 =
      some (GoError.wrap ("failed to create " ++ fmtD count ++ " namespaces: " ++ e.Error) e) ∧
    (createNamespacesInProject create ticks clusterID projectID count).2.1.bind GoError.Unwrap
      = some e ∧
    (createNamespacesInProject create ticks clusterID projectID count).2.1.map GoError.Error
      = some ("failed to create " ++ fmtD count ++ " namespaces: " ++ e.Error) := by
  obtain ⟨nss, hloop⟩ := createLoop_fail (create clusterID projectID) i count.toNat
    { namespaces := some [], calls := 0, attempts := 0 + 1 } e (by omega)
    (fun k hk => by simpa using hok k hk) (by simpa using hfail)
  have hpoll := PollUntilContextTimeout_error ticks
    (createCondition (create clusterID projectID) count)
    { namespaces := none, calls := 0, attempts := 0 } _ false e hloop
  simp [createNamespacesInProject, hpoll, GoError.Unwrap, GoError.Error]

/-- C4 amended, at a count of 2 where the first creation fails. -/
theorem createNamespacesInProject_error_wraps_witness :
    (createNamespacesInProject (fun _ _ _ => .error (GoError.errorsNew "boom")) 20 "c" "p"
        2).2.1.bind GoError.Unwrap = some (GoError.errorsNew "boom") :=
  (createNamespacesInProject_error_wraps (fun _ _ _ => .error (GoError.errorsNew "boom")) 20
    "c" "p" 2 0 (GoError.errorsNew "boom") (by decide) (fun k hk => absurd hk (by omega))
    rfl).2.1

/-- C10: when every creation call succeeds, `createNamespacesInProject` makes exactly
max(count, 0) creation calls in one poll attempt, returns a nil error and the list of the
max(count, 0) created namespaces in creation order (for count <= 0 the empty list, not the
nil one); and whatever the captured list held before an attempt, after a successful
attempt it holds the namespaces of that attempt only. -/
theorem createNamespacesInProject_all_created
    (create : String → String → Nat → Except GoError Namespace) (ticks : Nat)
    (clusterID projectID : String) (count : Int) (nss : Nat → Namespace)
    (hok : ∀ k < count.toNat, create clusterID projectID k = .ok (nss k)) :
    ((createNamespacesInProject create ticks clusterID projectID count).2.2.calls : Int)
      = max count 0 ∧
    (createNamespacesInProject create ticks clusterID projectID count).2.2.attempts = 1 ∧
    (createNamespacesInProject create ticks clusterID projectID count).2.1 = none ∧
    (createNamespacesInProject create ticks clusterID projectID count).1
      = some ((List.range count.toNat).map nss) ∧
    (((List.range count.toNat).map nss).length : Int) = max count 0 ∧
    (count ≤ 0 → (createNamespacesInProject create ticks clusterID projectID count).1 = some []) ∧
    (∀ s : CreateState,
      (∀ k < count.toNat, create clusterID projectID (s.calls + k) = .ok (nss k)) →
      (createCondition (create clusterID projectID) count s).2.namespaces
        = some ((List.range count.toNat).map nss)) := by
  have hloop := createLoop_ok (create clusterID projectID) count.toNat
    { namespaces := some [], calls := 0, attempts := 0 + 1 } [] nss rfl
    (fun k hk => by simpa using hok k hk)
  have hpoll := PollUntilContextTimeout_done ticks
    (createCondition (create clusterID projectID) count)
    { namespaces := none, calls := 0, attempts := 0 } _ hloop
  have hmax : ((count.toNat : Nat) : Int) = max count 0 := Int.toNat_eq_max count
  refine ⟨?_, ?_, ?_, ?_, ?_, ?_, ?_⟩
  · simp [createNamespacesInProject, hpoll, hmax]
  · simp [createNamespacesInProject, hpoll]
  · simp [createNamespacesInProject, hpoll]
  · simp [createNamespacesInProject, hpoll]
  · simp [hmax]
  · intro hc
    have h0 : count.toNat = 0 := Int.toNat_eq_zero.mpr hc
    simp [createNamespacesInProject, hpoll, h0]
  · intro s hs
    have := createLoop_ok (create clusterID projectID) count.toNat
      { s with namespaces := some [], attempts := s.attempts + 1 } [] nss rfl hs
    simp [createCondition, this]

/-- C10, at a count of 2 with a creation that names the namespace after the call. -/
theorem createNamespacesInProject_all_created_witness :
    (createNamespacesInProject
      (fun _ _ k => .ok { Name := if k = 0 then "ns-0" else "ns-1", Annotations := [] })
      20 "c" "p" 2).1 =
      some ((List.range (2 : Int).toNat).map
        (fun k => { Name := if k = 0 then "ns-0" else "ns-1", Annotations := [] })) :=
  (createNamespacesInProject_all_created
    (fun _ _ k => .ok { Name := if k = 0 then "ns-0" else "ns-1", Annotations := [] })
    20 "c" "p" 2 (fun k => { Name := if k = 0 then "ns-0" else "ns-1", Annotations := [] })
    (fun _ _ => rfl)).2.2.2.1

end Projects
